import Mathlib

/-!
# user-service: error classification and response mapping

A shallow embedding of `internal/apperror/middleware.go`, `internal/user/handler.go`
and `internal/user/db/mongodb.go`.

* Go `error` interface values are the inductive `GoError` (with `nil`); a pointer is
  compared by its address `Ptr`, as Go's `==` does on interface values holding pointers.
* A Go call either returns or panics: `Outcome`.
* `http.ResponseWriter` is `ResponseWriter`: the handler-side header map, the status and
  headers actually sent, the body, and the sequence of calls made on it.
* Logger calls have no effect on the response or on storage and are left out.
-/

namespace UserService

/-! ## Go values -/

/-- Address of a heap object: a package-level variable, or a cell allocated while a
request is served (cells are numbered by the order of the allocation sites). -/
inductive Ptr where
  | global (name : String)
  | heap (cell : Nat)
  deriving DecidableEq, Repr

/-- Value of the Go interface type error. The constructor appError is a non-nil
pointer to an AppError struct; the constructor other is a value of any other error type
(errors.New, fmt.Errorf, driver errors), whose cause is what its Unwrap method
returns (nil when it has none). -/
inductive GoError where
  | nil
  | appError (p : Ptr) (Err : GoError) (Message DeveloperMessage Code : String)
  | other (p : Ptr) (msg : String) (cause : GoError)
  deriving DecidableEq, Repr

/-- Result of running a piece of Go code: it returns a value or it panics. -/
inductive Outcome (α : Type) where
  | returned (a : α)
  | panicked (msg : String)
  deriving DecidableEq, Repr

/-- The runtime panic raised by a method call through a nil interface value. -/
def nilDereference : String :=
  "runtime error: invalid memory address or nil pointer dereference"

/-- The runtime panic raised by a failed single-value type assertion. The message of the
runtime also names the dynamic type of the value, which GoError does not record. -/
def badTypeAssertion : String :=
  "interface conversion: error is not *apperror.AppError"

/-! ## Package apperror (error.go is not among the sources) -/

/-- Modelled from the spec: the AppError struct of apperror/error.go, which is missing
from the sources. Attributes: underlying cause, user-facing message, developer detail
string, error code. -/
structure AppError where
  Err : GoError
  Message : String
  DeveloperMessage : String
  Code : String
  deriving DecidableEq, Repr

/-- Package-level values of apperror that the sources use but do not declare: the
pointee of ErrNotFound, the value of ErrDelete, and the message and code systemError
puts in its generic envelope. They are parameters of the development. -/
structure Globals where
  NotFound : AppError
  ErrDelete : GoError
  systemMessage : String
  systemCode : String

/-- The error value of a pointer to an AppError stored at address p. -/
def AppError.storedAt (a : AppError) (p : Ptr) : GoError :=
  .appError p a.Err a.Message a.DeveloperMessage a.Code

/-- The ErrNotFound singleton: a package-level pointer to an AppError. -/
def Globals.ErrNotFound (g : Globals) : GoError :=
  g.NotFound.storedAt (.global "apperror.ErrNotFound")

/-- Modelled from the spec: NewAppError of apperror/error.go (missing from the
sources); argument order as at its call sites in handler.go. It allocates a new AppError,
here in the heap cell given first. -/
def NewAppError (cell : Nat) (err : GoError) (message developerMessage code : String) : GoError :=
  .appError (.heap cell) err message developerMessage code

/-- Modelled from the spec: the Error method. An AppError reports its message, any
other error its text; calling it through a nil interface value panics. -/
def GoError.Error : GoError → Outcome String
  | .nil => .panicked nilDereference
  | .appError _ _ m _ _ => .returned m
  | .other _ m _ => .returned m

/-- The text of a non-nil error (the empty string for nil). -/
def GoError.text : GoError → String
  | .nil => ""
  | .appError _ _ m _ _ => m
  | .other _ m _ => m

/-- Modelled from the spec: Unwrap. An AppError wraps its underlying cause. -/
def GoError.Unwrap : GoError → GoError
  | .nil => .nil
  | .appError _ c _ _ _ => c
  | .other _ _ c => c

/-- Go's == on two error interface values: both nil, or the same dynamic type and the
same pointer. -/
def GoError.same : GoError → GoError → Bool
  | .nil, .nil => true
  | .appError p _ _ _ _, .appError q _ _ _ _ => p == q
  | .other p _ _, .other q _ _ => p == q
  | _, _ => false

/-- The loop of errors.Is for a non-nil target: compare, then unwrap, until nil. -/
def errorsIsLoop : GoError → GoError → Bool
  | .nil, _ => false
  | .appError p c m d k, target =>
      (GoError.appError p c m d k).same target || errorsIsLoop c target
  | .other p m c, target =>
      (GoError.other p m c).same target || errorsIsLoop c target

/-- The function errors.Is. -/
def errorsIs (err target : GoError) : Bool :=
  if err = .nil ∨ target = .nil then err.same target else errorsIsLoop err target

/-- The function errors.As with a target of type pointer-to-AppError: the first AppError
pointer on the Unwrap chain of err, if there is one. -/
def errorsAs : GoError → Option GoError
  | .nil => none
  | .appError p c m d k => some (.appError p c m d k)
  | .other _ _ c => errorsAs c

/-- The type assertion err.(*AppError): it yields err when its dynamic type is
pointer-to-AppError and panics otherwise. -/
def assertAppError : GoError → Outcome GoError
  | .appError p c m d k => .returned (.appError p c m d k)
  | _ => .panicked badTypeAssertion

/-- The errors reached from err by repeated Unwrap, err itself first. -/
def GoError.chain : GoError → List GoError
  | .nil => []
  | .appError p c m d k => .appError p c m d k :: c.chain
  | .other p m c => .other p m c :: c.chain

/-- Whether err is a pointer to an AppError. -/
def GoError.isAppError : GoError → Bool
  | .appError _ _ _ _ _ => true
  | _ => false

/-! ## Bytes written to the response -/

/-- JSON object whose member values are strings, members in the order emitted. -/
abbrev JsonObject := List (String × String)

/-- Byte slice handed to Write, described by what it encodes. -/
inductive Bytes where
  | json (o : JsonObject)
  | jsonArray (os : List JsonObject)
  | jsonNull
  | text (s : String)
  deriving DecidableEq, Repr

/-- Modelled from the spec: AppError.Marshal, the error envelope with the members code,
message and developer_message; the cause is not serialized. -/
def AppError.Marshal (a : AppError) : Bytes :=
  .json [("code", a.Code), ("message", a.Message), ("developer_message", a.DeveloperMessage)]

/-- Marshal called on an error value that is a pointer to an AppError. -/
def GoError.Marshal : GoError → Bytes
  | .appError _ c m d k => AppError.Marshal ⟨c, m, d, k⟩
  | _ => .text ""

/-- Modelled from the spec: systemError of apperror/error.go (missing from the sources),
the generic envelope whose developer detail is the text of the error. -/
def systemError (g : Globals) (err : GoError) : Outcome GoError :=
  match err.Error with
  | .panicked m => .panicked m
  | .returned s => .returned (NewAppError 1 err g.systemMessage s g.systemCode)

/-! ## net/http ResponseWriter -/

/-- One call on a ResponseWriter. -/
inductive WriterCall where
  | headerSet (key value : String)
  | writeHeader (code : Nat)
  | write (b : Bytes)
  deriving DecidableEq, Repr

/-- State of an http.ResponseWriter. The field header is the map returned by Header();
status, sentHeader and body are what has gone to the client (status 0: nothing sent yet);
calls records every call in order. -/
structure ResponseWriter where
  header : List (String × String)
  wroteHeader : Bool
  status : Nat
  sentHeader : List (String × String)
  body : List Bytes
  calls : List WriterCall
  deriving DecidableEq, Repr

/-- A writer on which nothing has been called. -/
def ResponseWriter.fresh : ResponseWriter :=
  ⟨[], false, 0, [], [], []⟩

/-- The call w.Header().Set(key, value): it changes the header map only; headers already
sent are not affected. -/
def ResponseWriter.HeaderSet (w : ResponseWriter) (key value : String) : ResponseWriter :=
  { w with header := (key, value) :: w.header.filter (fun kv => kv.1 != key),
           calls := w.calls ++ [.headerSet key value] }

/-- The call w.WriteHeader(code): the first one sends the status line and the current
header map; a later one is superfluous and sends nothing. -/
def ResponseWriter.WriteHeader (w : ResponseWriter) (code : Nat) : ResponseWriter :=
  if w.wroteHeader then { w with calls := w.calls ++ [.writeHeader code] }
  else { w with wroteHeader := true, status := code, sentHeader := w.header,
                calls := w.calls ++ [.writeHeader code] }

/-- Whether the byte slice has length zero. -/
def Bytes.isEmpty : Bytes → Bool
  | .text s => s.isEmpty
  | _ => false

/-- The function http.DetectContentType on the bytes this service writes: JSON text and
the plain confirmation message are both sniffed as UTF-8 plain text. -/
def DetectContentType (_ : Bytes) : String := "text/plain; charset=utf-8"

/-- The headers net/http sends with a body b when the handler sent the headers hdr: if
they hold no Content-Type and the body is not empty, the sniffed content type is added. -/
def sniffed (hdr : List (String × String)) (b : Bytes) : List (String × String) :=
  if hdr.any (fun kv => kv.1 == "Content-Type") || b.isEmpty then hdr
  else hdr ++ [("Content-Type", DetectContentType b)]

/-- The call w.Write(b): if no status has been sent, status 200 is sent first with the
current header map; the headers sent get the sniffed content type when they have none. -/
def ResponseWriter.Write (w : ResponseWriter) (b : Bytes) : ResponseWriter :=
  if w.wroteHeader then
    { w with sentHeader := sniffed w.sentHeader b, body := w.body ++ [b],
             calls := w.calls ++ [.write b] }
  else { w with wroteHeader := true, status := 200, sentHeader := sniffed w.header b,
                body := w.body ++ [b], calls := w.calls ++ [.write b] }

/-! ## httprouter parameters -/

/-- The type httprouter.Params. -/
abbrev Params := List (String × String)

/-- The method Params.ByName: the value of the first parameter with that key, else the
empty string. -/
def ByName : Params → String → String
  | [], _ => ""
  | (k, v) :: rest, name => if k = name then v else ByName rest name

/-! ## apperror.Middleware (middleware.go) -/

/-- State after running a handler or a wrapped handler: the writer, the rest of the
world (storage), and how the call ended. -/
structure Exec (ω α : Type) where
  w : ResponseWriter
  world : ω
  result : Outcome α

/-- The type appHandler: a handler returns an error (possibly nil) or panics. -/
abbrev appHandler (ω : Type) := ResponseWriter → Params → ω → Exec ω GoError

/-- The function Middleware of middleware.go. -/
def Middleware {ω : Type} (g : Globals) (h : appHandler ω) :
    ResponseWriter → Params → ω → Exec ω Unit :=
  fun w p world =>
    match h w p world with
    | ⟨w, world, .panicked m⟩ => ⟨w, world, .panicked m⟩
    | ⟨w, world, .returned err⟩ =>
      let w := w.HeaderSet "Content-Type" "application/json"
      if err ≠ .nil then
        match errorsAs err with
        | some _ =>
          if errorsIs err g.ErrNotFound then
            let w := w.WriteHeader 404
            let w := w.Write g.ErrNotFound.Marshal
            ⟨w, world, .returned ()⟩
          else
            match assertAppError err with
            | .panicked m => ⟨w, world, .panicked m⟩
            | .returned _ =>
              let w := w.WriteHeader 400
              let w := w.Write g.ErrNotFound.Marshal
              ⟨w, world, .returned ()⟩
        | none =>
          let w := w.WriteHeader 418
          match systemError g err with
          | .panicked m => ⟨w, world, .panicked m⟩
          | .returned sys =>
            let w := w.Write sys.Marshal
            ⟨w, world, .returned ()⟩
      else ⟨w, world, .returned ()⟩

/-! ## primitive.ObjectID (mongo driver) -/

/-- The type primitive.ObjectID: twelve bytes, kept as their hexadecimal digits. -/
structure ObjectID where
  nibbles : List (Fin 16)
  deriving DecidableEq, Repr

/-- The value primitive.NilObjectID: twelve zero bytes. -/
def NilObjectID : ObjectID := ⟨List.replicate 24 0⟩

/-- The lower-case hexadecimal digit of a nibble. -/
def hexDigit (n : Fin 16) : Char :=
  if n.val < 10 then Char.ofNat (48 + n.val) else Char.ofNat (87 + n.val)

/-- The nibble of a hexadecimal digit of either case. -/
def hexValue (c : Char) : Option (Fin 16) :=
  if 48 ≤ c.toNat ∧ c.toNat ≤ 57 then some (Fin.ofNat (c.toNat - 48))
  else if 97 ≤ c.toNat ∧ c.toNat ≤ 102 then some (Fin.ofNat (c.toNat - 87))
  else if 65 ≤ c.toNat ∧ c.toNat ≤ 70 then some (Fin.ofNat (c.toNat - 55))
  else none

/-- The function hex.Decode on the characters of a string. -/
def decodeHex : List Char → Option (List (Fin 16))
  | [] => some []
  | c :: cs =>
    match hexValue c, decodeHex cs with
    | some n, some ns => some (n :: ns)
    | _, _ => none

/-- The sentinel primitive.ErrInvalidHex. -/
def ErrInvalidHex : GoError :=
  .other (.global "primitive.ErrInvalidHex") "the provided hex string is not a valid ObjectID" .nil

/-- The error of hex.Decode on a byte that is no hexadecimal digit. The message of the
library also names the offending byte, which is left out here. -/
def InvalidByteError : GoError :=
  .other (.global "hex.InvalidByteError") "encoding/hex: invalid byte" .nil

/-- The function primitive.ObjectIDFromHex: the string must be 24 bytes long and
hexadecimal; on failure the nil ObjectID comes back with the error. -/
def ObjectIDFromHex (s : String) : ObjectID × GoError :=
  if s.utf8ByteSize ≠ 24 then (NilObjectID, ErrInvalidHex)
  else
    match decodeHex s.toList with
    | none => (NilObjectID, InvalidByteError)
    | some ns => (⟨ns⟩, .nil)

/-- The method ObjectID.Hex. -/
def ObjectID.Hex (o : ObjectID) : String := String.mk (o.nibbles.map hexDigit)

/-- The method ObjectID.String, used by the verb %s. -/
def ObjectID.String (o : ObjectID) : String := "ObjectID(\"" ++ o.Hex ++ "\")"

/-! ## Package user: model and storage port (model.go and storage.go are not among the sources) -/

/-- Modelled from the spec: the User struct of the user package (its file is missing
from the sources); field names as used in handler.go. -/
structure User where
  ID : String
  Email : String
  Username : String
  PasswordHash : String
  deriving DecidableEq, Repr

/-- Modelled from the spec: the CreateUserDTO struct (its file is missing from the
sources); field names as used in handler.go. -/
structure CreateUserDTO where
  Email : String
  Username : String
  Password : String
  deriving DecidableEq, Repr

/-- Modelled from the spec: the JSON members of a User: id, email, username and
password_hash. -/
def User.toJson (u : User) : JsonObject :=
  [("id", u.ID), ("email", u.Email), ("username", u.Username), ("password_hash", u.PasswordHash)]

/-- Modelled from the spec: the JSON members of the creation input: email, username and
password. -/
def CreateUserDTO.toJson (u : CreateUserDTO) : JsonObject :=
  [("email", u.Email), ("username", u.Username), ("password", u.Password)]

/-- The call json.Marshal on a User; encoding a struct of strings cannot fail. -/
def jsonMarshalUser (u : User) : Bytes × GoError := (.json u.toJson, .nil)

/-- The call json.Marshal on a slice of User. The empty list is the nil slice, the one
the adapter returns for an empty collection, and json.Marshal encodes a nil slice as
null. -/
def jsonMarshalUsers : List User → Bytes × GoError
  | [] => (.jsonNull, .nil)
  | u :: us => (.jsonArray ((u :: us).map User.toJson), .nil)

/-- The call json.Marshal on a CreateUserDTO. -/
def jsonMarshalDTO (u : CreateUserDTO) : Bytes × GoError := (.json u.toJson, .nil)

/-- The Storage interface of the user package, over a store state; the methods are those
handler.go calls and mongodb.go implements. The context argument is left out: a deadline
that expires shows as the error the operation returns. -/
structure Storage (σ : Type) where
  FindAll : σ → Outcome (List User × GoError) × σ
  Create : User → σ → Outcome (String × GoError) × σ
  FindOne : String → σ → Outcome (User × GoError) × σ
  Update : User → σ → Outcome GoError × σ
  Delete : String → σ → Outcome GoError × σ

/-- One call on the storage port, with its argument. -/
inductive StorageCall where
  | FindAll
  | Create (u : User)
  | FindOne (id : String)
  | Update (u : User)
  | Delete (id : String)
  deriving DecidableEq, Repr

/-- What a handler runs against: the store and the record of the storage calls made. -/
structure World (σ : Type) where
  store : σ
  stgCalls : List StorageCall

/-- The call h.stg.FindAll, recorded. -/
def World.FindAll {σ : Type} (stg : Storage σ) (x : World σ) :
    Outcome (List User × GoError) × World σ :=
  ((stg.FindAll x.store).1, ⟨(stg.FindAll x.store).2, x.stgCalls ++ [.FindAll]⟩)

/-- The call h.stg.Create, recorded. -/
def World.Create {σ : Type} (stg : Storage σ) (u : User) (x : World σ) :
    Outcome (String × GoError) × World σ :=
  ((stg.Create u x.store).1, ⟨(stg.Create u x.store).2, x.stgCalls ++ [.Create u]⟩)

/-- The call h.stg.FindOne, recorded. -/
def World.FindOne {σ : Type} (stg : Storage σ) (id : String) (x : World σ) :
    Outcome (User × GoError) × World σ :=
  ((stg.FindOne id x.store).1, ⟨(stg.FindOne id x.store).2, x.stgCalls ++ [.FindOne id]⟩)

/-- The call h.stg.Update, recorded. -/
def World.Update {σ : Type} (stg : Storage σ) (u : User) (x : World σ) :
    Outcome GoError × World σ :=
  ((stg.Update u x.store).1, ⟨(stg.Update u x.store).2, x.stgCalls ++ [.Update u]⟩)

/-- The call h.stg.Delete, recorded. -/
def World.Delete {σ : Type} (stg : Storage σ) (id : String) (x : World σ) :
    Outcome GoError × World σ :=
  ((stg.Delete id x.store).1, ⟨(stg.Delete id x.store).2, x.stgCalls ++ [.Delete id]⟩)

/-- The expression NewAppError(err, message, err.Error(), code) as the handlers write it:
the arguments are evaluated first, so a nil err panics in err.Error(). -/
def newAppErrorOf (err : GoError) (message code : String) : Outcome GoError :=
  match err.Error with
  | .panicked m => .panicked m
  | .returned detail => .returned (NewAppError 0 err message detail code)

/-! ## Handlers (handler.go) -/

/-- The method handler.GetList. -/
def GetList {σ : Type} (g : Globals) (stg : Storage σ) : appHandler (World σ) :=
  fun w _ world =>
    match world.FindAll stg with
    | (.panicked m, world) => ⟨w, world, .panicked m⟩
    | (.returned (users, err), world) =>
      if err ≠ .nil then ⟨w, world, .returned g.ErrNotFound⟩
      else
        match jsonMarshalUsers users with
        | (data, err) =>
          if err ≠ .nil then ⟨w, world, newAppErrorOf err "error marshaling" "E-0990"⟩
          else
            let w := w.Write data
            let w := w.WriteHeader 200
            ⟨w, world, .returned .nil⟩

/-- The method handler.CreateUser. -/
def CreateUser {σ : Type} (stg : Storage σ) : appHandler (World σ) :=
  fun w params world =>
    let user : CreateUserDTO :=
      ⟨ByName params "email", ByName params "username", ByName params "password"⟩
    match world.Create stg ⟨"", user.Email, user.Username, user.Password⟩ with
    | (.panicked m, world) => ⟨w, world, .panicked m⟩
    | (.returned (_, err), world) =>
      if err ≠ .nil then
        ⟨w, world, newAppErrorOf err ("error create user with name: " ++ user.Username) "E-0991"⟩
      else
        match jsonMarshalDTO user with
        | (userCreateBytes, err) =>
          if err ≠ .nil then ⟨w, world, newAppErrorOf err "error marshaling" "E-0990"⟩
          else
            let w := w.Write userCreateBytes
            let w := w.WriteHeader 201
            ⟨w, world, .returned .nil⟩

/-- The method handler.GetUserByUUID. The error of ObjectIDFromHex is assigned and then
overwritten by the next assignment without being read. -/
def GetUserByUUID {σ : Type} (stg : Storage σ) : appHandler (World σ) :=
  fun w params world =>
    match ObjectIDFromHex (ByName params "uuid") with
    | (oId, _) =>
      match world.FindOne stg oId.Hex with
      | (.panicked m, world) => ⟨w, world, .panicked m⟩
      | (.returned (user, err), world) =>
        if err ≠ .nil then
          ⟨w, world, newAppErrorOf err ("error find one user by id: " ++ oId.Hex) "E-0990"⟩
        else
          match jsonMarshalUser user with
          | (data, err) =>
            if err ≠ .nil then
              ⟨w, world, newAppErrorOf err ("error marshaling user by id: " ++ oId.Hex) "E-0990"⟩
            else
              let w := w.Write data
              let w := w.WriteHeader 200
              ⟨w, world, .returned .nil⟩

/-- The method handler.UpdateUser. When Update fails, the AppError is built from err, the
error of FindOne, which is nil at that point. -/
def UpdateUser {σ : Type} (stg : Storage σ) : appHandler (World σ) :=
  fun w params world =>
    match ObjectIDFromHex (ByName params "uuid") with
    | (oId, err) =>
      if err ≠ .nil then
        ⟨w, world, newAppErrorOf err
          ("failed to convert user ID to ObjectId. ID=" ++ oId.Hex) "E-0992"⟩
      else
        match world.FindOne stg oId.Hex with
        | (.panicked m, world) => ⟨w, world, .panicked m⟩
        | (.returned (user, err), world) =>
          if err ≠ .nil then ⟨w, world, .returned err⟩
          else
            let user := { user with Email := ByName params "email" }
            let user := { user with Username := ByName params "username" }
            let user := { user with PasswordHash := ByName params "password" }
            match world.Update stg user with
            | (.panicked m, world) => ⟨w, world, .panicked m⟩
            | (.returned errUpdate, world) =>
              if errUpdate ≠ .nil then
                ⟨w, world, newAppErrorOf err ("error update user id: " ++ oId.Hex) "E-0993"⟩
              else
                match jsonMarshalUser user with
                | (userBytes, err) =>
                  if err ≠ .nil then
                    ⟨w, world, newAppErrorOf err
                      ("error marshaling user by id: " ++ oId.Hex) "E-0990"⟩
                  else
                    let w := w.Write userBytes
                    let w := w.WriteHeader 200
                    ⟨w, world, .returned .nil⟩

/-- The method handler.PartiallyUpdateUser. -/
def PartiallyUpdateUser {σ : Type} (stg : Storage σ) : appHandler (World σ) :=
  fun w params world =>
    match ObjectIDFromHex (ByName params "uuid") with
    | (oId, err) =>
      if err ≠ .nil then
        ⟨w, world, newAppErrorOf err
          ("failed to convert user ID to ObjectId. ID=" ++ oId.Hex) "E-0992"⟩
      else
        match world.FindOne stg oId.Hex with
        | (.panicked m, world) => ⟨w, world, .panicked m⟩
        | (.returned (user, err), world) =>
          if err ≠ .nil then ⟨w, world, .returned err⟩
          else
            let email := ByName params "email"
            let username := ByName params "username"
            let password := ByName params "password"
            let user := if email ≠ "pass" then { user with Email := email } else user
            let user := if username ≠ "pass" then { user with Username := username } else user
            let user := if password ≠ "pass" then { user with PasswordHash := password } else user
            match world.Update stg user with
            | (.panicked m, world) => ⟨w, world, .panicked m⟩
            | (.returned errUpdate, world) =>
              if errUpdate ≠ .nil then
                ⟨w, world, newAppErrorOf err
                  ("error partially update user id: " ++ oId.Hex) "E-0993"⟩
              else
                match jsonMarshalUser user with
                | (userBytes, err) =>
                  if err ≠ .nil then
                    ⟨w, world, newAppErrorOf err
                      ("error marshaling user by id: " ++ oId.Hex) "E-0990"⟩
                  else
                    let w := w.Write userBytes
                    let w := w.WriteHeader 200
                    ⟨w, world, .returned .nil⟩

/-- The method handler.DeleteUser. -/
def DeleteUser {σ : Type} (g : Globals) (stg : Storage σ) : appHandler (World σ) :=
  fun w params world =>
    match ObjectIDFromHex (ByName params "uuid") with
    | (oId, errObjFromHex) =>
      if errObjFromHex ≠ .nil then
        ⟨w, world, newAppErrorOf errObjFromHex
          ("failed to convert user ID to ObjectId. ID=" ++ oId.Hex) "E-0992"⟩
      else
        match world.Delete stg oId.Hex with
        | (.panicked m, world) => ⟨w, world, .panicked m⟩
        | (.returned errDelete, world) =>
          if errDelete ≠ .nil then ⟨w, world, .returned g.ErrDelete⟩
          else
            let w := w.Write (.text ("Пользователь с ID: " ++ oId.String ++ " успешно удален!"))
            ⟨w, world, .returned .nil⟩

/-- The six routes that handler.Register wraps in Middleware. -/
inductive Route where
  | getList
  | createUser
  | getUserByUUID
  | updateUser
  | partiallyUpdateUser
  | deleteUser
  deriving DecidableEq, Repr

/-- The handler Register installs for a route, before wrapping. -/
def Route.handler {σ : Type} (g : Globals) (stg : Storage σ) : Route → appHandler (World σ)
  | .getList => GetList g stg
  | .createUser => CreateUser stg
  | .getUserByUUID => GetUserByUUID stg
  | .updateUser => UpdateUser stg
  | .partiallyUpdateUser => PartiallyUpdateUser stg
  | .deleteUser => DeleteUser g stg

/-- The handle Register installs for a route: Middleware applied to the handler. -/
def Register {σ : Type} (g : Globals) (stg : Storage σ) (r : Route) :
    ResponseWriter → Params → World σ → Exec (World σ) Unit :=
  Middleware g (r.handler g stg)

/-! ## The document store behind mongodb.go

The mongo driver is outside the repository. A collection is a list of user documents
together with a script of the driver failures to come: each driver call consumes the head
of the script and fails when it holds an error text. -/

/-- A user document of the collection. -/
structure Document where
  id : ObjectID
  email : String
  username : String
  password : String
  deriving DecidableEq, Repr

/-- The type mongo.Collection: its documents, the scripted failures of the coming driver
calls, and the counter from which InsertOne draws a new identifier. -/
structure Collection where
  docs : List Document
  faults : List (Option String)
  counter : Nat
  deriving DecidableEq, Repr

/-- The sentinel mongo.ErrNoDocuments. -/
def ErrNoDocuments : GoError :=
  .other (.global "mongo.ErrNoDocuments") "mongo: no documents in result" .nil

/-- An error reported by the driver. -/
def driverError (msg : String) : GoError := .other (.heap 3) msg .nil

/-- The call fmt.Errorf in mongodb.go; no format there uses the verb %w, so the result
wraps nothing. -/
def fmtErrorf (msg : String) : GoError := .other (.heap 2) msg .nil

/-- The verb %v applied to an error. -/
def GoError.verbV : GoError → String
  | .nil => "<nil>"
  | e => e.text

/-- Take the scripted outcome of the next driver call. -/
def Collection.next (c : Collection) : Option String × Collection :=
  match c.faults with
  | [] => (none, c)
  | f :: rest => (f, { c with faults := rest })

/-- The identifier the driver generates for the n-th inserted document. -/
def ObjectID.ofNat (n : Nat) : ObjectID :=
  ⟨(List.range 24).reverse.map (fun i => Fin.ofNat (n / 16 ^ i))⟩

/-- The user a document decodes to. -/
def Document.toUser (d : Document) : User := ⟨d.id.Hex, d.email, d.username, d.password⟩

/-- The type mongo.Cursor. -/
structure Cursor where
  err : GoError
  batch : List Document

/-- The type mongo.SingleResult. -/
structure SingleResult where
  err : GoError
  doc : Option Document

/-- The call collection.Find with the empty filter: on failure the cursor is nil. -/
def Collection.Find (c : Collection) : (Option Cursor × GoError) × Collection :=
  match c.next with
  | (some msg, c) => ((none, driverError msg), c)
  | (none, c) => ((some ⟨.nil, c.docs⟩, .nil), c)

/-- The call cursor.All. -/
def Collection.All (c : Collection) (cur : Cursor) : (List User × GoError) × Collection :=
  match c.next with
  | (some msg, c) => (([], driverError msg), c)
  | (none, c) => ((cur.batch.map Document.toUser, .nil), c)

/-- The call collection.FindOne filtering on _id. -/
def Collection.FindOne (c : Collection) (oId : ObjectID) : SingleResult × Collection :=
  match c.next with
  | (some msg, c) => (⟨driverError msg, none⟩, c)
  | (none, c) =>
    match c.docs.find? (fun d => d.id = oId) with
    | none => (⟨ErrNoDocuments, none⟩, c)
    | some d => (⟨.nil, some d⟩, c)

/-- The call result.Decode into a User. -/
def SingleResult.Decode (r : SingleResult) (u : User) : User × GoError :=
  match r.doc with
  | none => (u, r.err)
  | some d => (d.toUser, .nil)

/-- The call collection.InsertOne. A user with an empty ID gets a generated ObjectID;
otherwise the ID string itself is the document key, which no document of this model
has, and the inserted key is returned as a string. -/
def Collection.InsertOne (c : Collection) (u : User) :
    (Option (ObjectID ⊕ String) × GoError) × Collection :=
  match c.next with
  | (some msg, c) => ((none, driverError msg), c)
  | (none, c) =>
    if u.ID = "" then
      ((some (.inl (ObjectID.ofNat c.counter)), .nil),
        { c with docs := c.docs ++ [⟨ObjectID.ofNat c.counter, u.Email, u.Username, u.PasswordHash⟩],
                 counter := c.counter + 1 })
    else ((some (.inr u.ID), .nil), c)

/-- Replace the three fields of the first document with the given id. -/
def setFields (oId : ObjectID) (u : User) : List Document → List Document
  | [] => []
  | d :: ds =>
    if d.id = oId then { d with email := u.Email, username := u.Username, password := u.PasswordHash } :: ds
    else d :: setFields oId u ds

/-- The call collection.UpdateOne with the update $set of every field but _id; the
number returned is MatchedCount. -/
def Collection.UpdateOne (c : Collection) (oId : ObjectID) (u : User) :
    (Nat × GoError) × Collection :=
  match c.next with
  | (some msg, c) => ((0, driverError msg), c)
  | (none, c) =>
    if c.docs.any (fun d => d.id = oId) then ((1, .nil), { c with docs := setFields oId u c.docs })
    else ((0, .nil), c)

/-- The call collection.DeleteOne; the number returned is DeletedCount. -/
def Collection.DeleteOne (c : Collection) (oId : ObjectID) : (Nat × GoError) × Collection :=
  match c.next with
  | (some msg, c) => ((0, driverError msg), c)
  | (none, c) =>
    if c.docs.any (fun d => d.id = oId) then ((1, .nil), { c with docs := c.docs.eraseP (fun d => d.id = oId) })
    else ((0, .nil), c)

/-! ## The storage adapter (mongodb.go) -/

/-- The method db.FindAll. The cursor is used before the error of Find is looked at. -/
def db.FindAll (g : Globals) (c : Collection) : Outcome (List User × GoError) × Collection :=
  match c.Find with
  | ((none, _), c) => (.panicked nilDereference, c)
  | ((some cursor, err), c) =>
    if cursor.err ≠ .nil then
      if errorsIs cursor.err ErrNoDocuments then (.returned ([], g.ErrNotFound), c)
      else (.returned ([], fmtErrorf ("failed to find all users. due to error: " ++ err.verbV)), c)
    else
      match c.All cursor with
      | ((u, err), c) =>
        if err ≠ .nil then
          (.returned ([], fmtErrorf "failed to read all documents from cursor"), c)
        else (.returned (u, .nil), c)

/-- The method db.Create. -/
def db.Create (user : User) (c : Collection) : Outcome (String × GoError) × Collection :=
  match c.InsertOne user with
  | ((result, err), c) =>
    if err ≠ .nil then
      (.returned ("", fmtErrorf ("failed to create user due to error: " ++ err.verbV)), c)
    else
      match result with
      | some (.inl oId) => (.returned (oId.Hex, .nil), c)
      | _ =>
        (.returned ("", fmtErrorf
          ("failed to convert objectId to hex. probably oId: " ++ NilObjectID.String)), c)

/-- The method db.FindOne. -/
def db.FindOne (g : Globals) (id : String) (c : Collection) :
    Outcome (User × GoError) × Collection :=
  let u : User := ⟨"", "", "", ""⟩
  match ObjectIDFromHex id with
  | (oId, err) =>
    if err ≠ .nil then
      (.returned (u, fmtErrorf ("failed to convert hex to object id. hex: " ++ id)), c)
    else
      match c.FindOne oId with
      | (result, c) =>
        let resultError := result.err
        if resultError ≠ .nil then
          if errorsIs resultError ErrNoDocuments then (.returned (u, g.ErrNotFound), c)
          else
            (.returned (u, fmtErrorf ("failed to find one user by id: " ++ id ++
              " due to error: " ++ err.verbV)), c)
        else
          match result.Decode u with
          | (u, err) =>
            if err ≠ .nil then
              (.returned (u, fmtErrorf ("failed to decode user (id:" ++ id ++
                ") from decode: " ++ err.verbV)), c)
            else (.returned (u, .nil), c)

/-- The method db.Update. Marshalling a User to a document and back cannot fail; the
update sets every field but _id. -/
def db.Update (g : Globals) (user : User) (c : Collection) : Outcome GoError × Collection :=
  match ObjectIDFromHex user.ID with
  | (oId, err) =>
    if err ≠ .nil then
      (.returned (fmtErrorf ("failed to convert user ID to ObjectId. ID=" ++ user.ID)), c)
    else
      match c.UpdateOne oId user with
      | ((matchedCount, err), c) =>
        if err ≠ .nil then
          (.returned (fmtErrorf ("failed to execute update user query. error: " ++ err.verbV)), c)
        else if matchedCount = 0 then (.returned g.ErrNotFound, c)
        else (.returned .nil, c)

/-- The method db.Delete. -/
def db.Delete (g : Globals) (id : String) (c : Collection) : Outcome GoError × Collection :=
  match ObjectIDFromHex id with
  | (oId, err) =>
    if err ≠ .nil then
      (.returned (fmtErrorf ("failed to convert user ID to ObjectId. ID=" ++ id)), c)
    else
      match c.DeleteOne oId with
      | ((deletedCount, err), c) =>
        if err ≠ .nil then
          (.returned (fmtErrorf ("failed to execute query. error: " ++ err.verbV)), c)
        else if deletedCount = 0 then (.returned g.ErrNotFound, c)
        else (.returned .nil, c)

/-- The function NewStorage: the adapter as a Storage. -/
def NewStorage (g : Globals) : Storage Collection where
  FindAll := db.FindAll g
  Create := db.Create
  FindOne := db.FindOne g
  Update := db.Update g
  Delete := db.Delete g

/-! ## Vocabulary of the statements -/

/-- The error E is the target or wraps it: some error on the Unwrap chain of E is the
same pointer as the target. -/
def GoError.isOrWraps (E target : GoError) : Prop :=
  ∃ e ∈ E.chain, e.same target = true

/-- The error E is or wraps a pointer to an AppError. -/
def GoError.hasAppError (E : GoError) : Prop :=
  ∃ e ∈ E.chain, e.isAppError = true

instance (E target : GoError) : Decidable (E.isOrWraps target) := by
  unfold GoError.isOrWraps
  infer_instance

instance (E : GoError) : Decidable E.hasAppError := by
  unfold GoError.hasAppError
  infer_instance

/-- Nothing has been sent on the writer: no status line and no body. -/
def ResponseWriter.nothingSent (w : ResponseWriter) : Prop :=
  w.wroteHeader = false ∧ w.body = []

/-- The bytes are a JSON object with a member whose value is the string s. -/
def Bytes.hasMemberValue (b : Bytes) (s : String) : Prop :=
  ∃ o k, b = .json o ∧ (k, s) ∈ o

/-- The calls Middleware makes on the writer when it answers with a status and a body. -/
def answerCalls (code : Nat) (body : Bytes) : List WriterCall :=
  [.headerSet "Content-Type" "application/json", .writeHeader code, .write body]

/-! ## Sample values -/

/-- Sample package values for the closed examples. The value given to ErrDelete is a
placeholder: its declaration is not among the sources and no statement below depends on
it. -/
def sampleGlobals : Globals :=
  ⟨⟨.nil, "not found", "", "E-0404"⟩,
   .appError (.global "apperror.ErrDelete") .nil "delete failed" "" "E-0994",
   "internal system error", "E-0000"⟩

/-- A syntactically valid id, that of the stored sample user. -/
def sampleId : String := "5f1e2d3c4b5a69788796a5b4"

/-- The ObjectID that sampleId decodes to. -/
def sampleOid : ObjectID :=
  ⟨[5, 15, 1, 14, 2, 13, 3, 12, 4, 11, 5, 10, 6, 9, 7, 8, 8, 7, 9, 6, 10, 5, 11, 4]⟩

/-- A syntactically valid id that matches no stored document. -/
def absentId : String := "5f1e2d3c4b5a69788796a5b5"

/-- The ObjectID that absentId decodes to. -/
def absentOid : ObjectID :=
  ⟨[5, 15, 1, 14, 2, 13, 3, 12, 4, 11, 5, 10, 6, 9, 7, 8, 8, 7, 9, 6, 10, 5, 11, 5]⟩

/-- A collection holding the user of the spec example, with no failure scripted. -/
def sampleCollection : Collection := ⟨[⟨sampleOid, "a", "b", "c"⟩], [], 7⟩

/-- The sample collection with the second driver call scripted to fail. -/
def flakyCollection : Collection := ⟨[⟨sampleOid, "a", "b", "c"⟩], [none, some "connection lost"], 7⟩

/-- A handler that writes nothing and returns the given error. -/
def failWith (E : GoError) : appHandler Unit := fun w _ x => ⟨w, x, .returned E⟩

/-- An error of another type that wraps ErrNotFound, as fmt.Errorf with %w builds it. -/
def sampleWrappedNotFound : GoError :=
  .other (.heap 9) "lookup: not found" sampleGlobals.ErrNotFound

/-- An AppError other than ErrNotFound. -/
def sampleAppError : GoError := NewAppError 0 .nil "bad input" "detail" "E-0001"

/-- An error of another type that wraps sampleAppError, as fmt.Errorf with %w builds it. -/
def sampleWrappedAppError : GoError := .other (.heap 9) "context: bad input" sampleAppError

/-- An error that neither is nor wraps an AppError. -/
def samplePlainError : GoError := .other (.heap 9) "disk full" .nil

/-! ## Errors: Is, As and the Unwrap chain -/

theorem errorsIsLoop_iff (E t : GoError) :
    errorsIsLoop E t = true ↔ E.isOrWraps t := by
  induction E with
  | nil => simp [errorsIsLoop, GoError.isOrWraps, GoError.chain]
  | appError p c m d k ih =>
    simp only [errorsIsLoop, GoError.isOrWraps, GoError.chain, Bool.or_eq_true, ih,
      List.mem_cons, exists_eq_or_imp]
  | other p m c ih =>
    simp only [errorsIsLoop, GoError.isOrWraps, GoError.chain, Bool.or_eq_true, ih,
      List.mem_cons, exists_eq_or_imp]

theorem ErrNotFound_ne_nil (g : Globals) : g.ErrNotFound ≠ .nil := by
  simp [Globals.ErrNotFound, AppError.storedAt]

theorem errorsIs_ErrNotFound_iff (g : Globals) (E : GoError) :
    errorsIs E g.ErrNotFound = true ↔ E.isOrWraps g.ErrNotFound := by
  unfold errorsIs
  by_cases hE : E = .nil
  · subst hE
    simp [GoError.same, GoError.isOrWraps, GoError.chain, Globals.ErrNotFound, AppError.storedAt]
  · simp only [hE, ErrNotFound_ne_nil, or_self, if_false]
    exact errorsIsLoop_iff E _

theorem isAppError_of_same_ErrNotFound (g : Globals) (e : GoError)
    (h : e.same g.ErrNotFound = true) : e.isAppError = true := by
  cases e <;> simp_all [GoError.same, GoError.isAppError, Globals.ErrNotFound, AppError.storedAt]

theorem errorsAs_isSome_iff (E : GoError) :
    (errorsAs E).isSome = true ↔ E.hasAppError := by
  induction E with
  | nil => simp [errorsAs, GoError.hasAppError, GoError.chain]
  | appError p c m d k ih =>
    simp [errorsAs, GoError.hasAppError, GoError.chain, GoError.isAppError]
  | other p m c ih =>
    simp only [errorsAs, ih, GoError.hasAppError, GoError.chain, List.mem_cons,
      exists_eq_or_imp, GoError.isAppError, false_or]
    simp

theorem hasAppError_of_isOrWraps_ErrNotFound (g : Globals) (E : GoError)
    (h : E.isOrWraps g.ErrNotFound) : E.hasAppError := by
  obtain ⟨e, he, hs⟩ := h
  exact ⟨e, he, isAppError_of_same_ErrNotFound g e hs⟩

theorem ne_nil_of_hasAppError (E : GoError) (h : E.hasAppError) : E ≠ .nil := by
  rintro rfl
  simp [GoError.hasAppError, GoError.chain] at h

theorem Marshal_ErrNotFound (g : Globals) : g.ErrNotFound.Marshal = g.NotFound.Marshal := rfl

/-- What Middleware does once the handler has returned the error E. -/
theorem Middleware_notFound {ω : Type} (g : Globals) (h : appHandler ω) (w : ResponseWriter)
    (p : Params) (x : ω) (E : GoError) (hE : (h w p x).result = .returned E)
    (hnf : E.isOrWraps g.ErrNotFound) :
    Middleware g h w p x =
      ⟨(((h w p x).w.HeaderSet "Content-Type" "application/json").WriteHeader 404).Write
        g.NotFound.Marshal, (h w p x).world, .returned ()⟩ := by
  have has := (errorsAs_isSome_iff E).2 (hasAppError_of_isOrWraps_ErrNotFound g E hnf)
  have hne := ne_nil_of_hasAppError E (hasAppError_of_isOrWraps_ErrNotFound g E hnf)
  have his := (errorsIs_ErrNotFound_iff g E).2 hnf
  rcases hx : h w p x with ⟨w1, x1, r⟩
  rw [hx] at hE
  simp only at hE
  subst hE
  obtain ⟨a, ha⟩ := Option.isSome_iff_exists.1 has
  simp [Middleware, hx, hne, ha, his, Marshal_ErrNotFound]

/-! ## Middleware, branch by branch -/

theorem Middleware_appError {ω : Type} (g : Globals) (h : appHandler ω) (w : ResponseWriter)
    (p : Params) (x : ω) (E : GoError) (hE : (h w p x).result = .returned E)
    (hself : E.isAppError = true) (hnf : ¬ E.isOrWraps g.ErrNotFound) :
    Middleware g h w p x =
      ⟨(((h w p x).w.HeaderSet "Content-Type" "application/json").WriteHeader 400).Write
        g.NotFound.Marshal, (h w p x).world, .returned ()⟩ := by
  have his : errorsIs E g.ErrNotFound = false := by
    rw [← Bool.not_eq_true, errorsIs_ErrNotFound_iff]; exact hnf
  rcases hx : h w p x with ⟨w1, x1, r⟩
  rw [hx] at hE
  simp only at hE
  subst hE
  cases E <;> simp [GoError.isAppError] at hself
  simp [Middleware, hx, errorsAs, his, assertAppError, Marshal_ErrNotFound]

theorem Middleware_wrapped {ω : Type} (g : Globals) (h : appHandler ω) (w : ResponseWriter)
    (p : Params) (x : ω) (E : GoError) (hE : (h w p x).result = .returned E)
    (hself : E.isAppError = false) (has : E.hasAppError) (hnf : ¬ E.isOrWraps g.ErrNotFound) :
    Middleware g h w p x =
      ⟨(h w p x).w.HeaderSet "Content-Type" "application/json", (h w p x).world,
        .panicked badTypeAssertion⟩ := by
  have his : errorsIs E g.ErrNotFound = false := by
    rw [← Bool.not_eq_true, errorsIs_ErrNotFound_iff]; exact hnf
  have hne := ne_nil_of_hasAppError E has
  obtain ⟨a, ha⟩ := Option.isSome_iff_exists.1 ((errorsAs_isSome_iff E).2 has)
  rcases hx : h w p x with ⟨w1, x1, r⟩
  rw [hx] at hE
  simp only at hE
  subst hE
  cases E <;> simp [GoError.isAppError] at hself
  · exact absurd rfl hne
  · simp [Middleware, hx, ha, his, assertAppError]

theorem Middleware_unclassified {ω : Type} (g : Globals) (h : appHandler ω) (w : ResponseWriter)
    (p : Params) (x : ω) (E : GoError) (hE : (h w p x).result = .returned E)
    (hne : E ≠ .nil) (has : ¬ E.hasAppError) :
    Middleware g h w p x =
      ⟨(((h w p x).w.HeaderSet "Content-Type" "application/json").WriteHeader 418).Write
        (NewAppError 1 E g.systemMessage E.text g.systemCode).Marshal,
        (h w p x).world, .returned ()⟩ := by
  have hn : errorsAs E = none := by
    rw [← Option.not_isSome_iff_eq_none, errorsAs_isSome_iff]; exact has
  rcases hx : h w p x with ⟨w1, x1, r⟩
  rw [hx] at hE
  simp only at hE
  subst hE
  cases E with
  | nil => exact absurd rfl hne
  | appError p c m d k => simp [errorsAs] at hn
  | other q m c =>
    simp [Middleware, hx, hn, systemError, GoError.Error, GoError.text]

theorem Middleware_nil {ω : Type} (g : Globals) (h : appHandler ω) (w : ResponseWriter)
    (p : Params) (x : ω) (hE : (h w p x).result = .returned .nil) :
    Middleware g h w p x =
      ⟨(h w p x).w.HeaderSet "Content-Type" "application/json", (h w p x).world,
        .returned ()⟩ := by
  rcases hx : h w p x with ⟨w1, x1, r⟩
  rw [hx] at hE
  simp only at hE
  subst hE
  simp [Middleware, hx]

theorem Middleware_panicked {ω : Type} (g : Globals) (h : appHandler ω) (w : ResponseWriter)
    (p : Params) (x : ω) (m : String) (hE : (h w p x).result = .panicked m) :
    Middleware g h w p x = ⟨(h w p x).w, (h w p x).world, .panicked m⟩ := by
  rcases hx : h w p x with ⟨w1, x1, r⟩
  rw [hx] at hE
  simp only at hE
  subst hE
  simp [Middleware, hx]

theorem calls_answer (w : ResponseWriter) (code : Nat) (b : Bytes) :
    (((w.HeaderSet "Content-Type" "application/json").WriteHeader code).Write b).calls =
      w.calls ++ answerCalls code b := by
  simp only [ResponseWriter.HeaderSet, ResponseWriter.WriteHeader, ResponseWriter.Write,
    answerCalls]
  split <;> simp

theorem sent_answer (w : ResponseWriter) (code : Nat) (b : Bytes) (hw : w.nothingSent) :
    (((w.HeaderSet "Content-Type" "application/json").WriteHeader code).Write b).status = code ∧
    (((w.HeaderSet "Content-Type" "application/json").WriteHeader code).Write b).body = [b] ∧
    ("Content-Type", "application/json") ∈
      (((w.HeaderSet "Content-Type" "application/json").WriteHeader code).Write b).sentHeader := by
  obtain ⟨h1, h2⟩ := hw
  simp [ResponseWriter.HeaderSet, ResponseWriter.WriteHeader, ResponseWriter.Write, sniffed,
    h1, h2]

/-! ## The response mapper: C1, C2, C3 -/

/-- C1: when the handler returns an error that is, or wraps, the ErrNotFound singleton,
Middleware returns normally and the calls it adds on the writer are exactly Header().Set of
the content type, WriteHeader(404) and Write(ErrNotFound.Marshal()), nothing else; when the
handler itself had sent nothing, the response sent has status 404, the body
ErrNotFound.Marshal() and the JSON content type. -/
theorem C1_not_found_answers_404 {ω : Type} (g : Globals) (h : appHandler ω)
    (w : ResponseWriter) (p : Params) (x : ω) (E : GoError)
    (hE : (h w p x).result = .returned E) (hnf : E.isOrWraps g.ErrNotFound) :
    (Middleware g h w p x).result = .returned () ∧
    (Middleware g h w p x).w.calls = (h w p x).w.calls ++ answerCalls 404 g.ErrNotFound.Marshal ∧
    ((h w p x).w.nothingSent →
      (Middleware g h w p x).w.status = 404 ∧
      (Middleware g h w p x).w.body = [g.ErrNotFound.Marshal] ∧
      ("Content-Type", "application/json") ∈ (Middleware g h w p x).w.sentHeader) := by
  rw [Middleware_notFound g h w p x E hE hnf, Marshal_ErrNotFound]
  exact ⟨rfl, calls_answer _ _ _, sent_answer _ _ _⟩

theorem sampleWrappedNotFound_wraps : sampleWrappedNotFound.isOrWraps sampleGlobals.ErrNotFound :=
  ⟨sampleGlobals.ErrNotFound, by simp [sampleWrappedNotFound, GoError.chain, Globals.ErrNotFound, AppError.storedAt], by
    simp [GoError.same, Globals.ErrNotFound, AppError.storedAt]⟩

/-- Witness of C1: a handler returning an error that wraps ErrNotFound. -/
theorem C1_not_found_answers_404_witness :
    sampleWrappedNotFound.isOrWraps sampleGlobals.ErrNotFound ∧
    (Middleware sampleGlobals (failWith sampleWrappedNotFound) .fresh [] ()).w.status = 404 ∧
    (Middleware sampleGlobals (failWith sampleWrappedNotFound) .fresh [] ()).w.body =
      [sampleGlobals.ErrNotFound.Marshal] :=
  ⟨sampleWrappedNotFound_wraps,
   ((C1_not_found_answers_404 sampleGlobals (failWith sampleWrappedNotFound) .fresh [] ()
      sampleWrappedNotFound rfl sampleWrappedNotFound_wraps).2.2 ⟨rfl, rfl⟩).1,
   ((C1_not_found_answers_404 sampleGlobals (failWith sampleWrappedNotFound) .fresh [] ()
      sampleWrappedNotFound rfl sampleWrappedNotFound_wraps).2.2 ⟨rfl, rfl⟩).2.1⟩

theorem samples_not_notFound :
    ¬ sampleAppError.isOrWraps sampleGlobals.ErrNotFound ∧
    ¬ sampleWrappedAppError.isOrWraps sampleGlobals.ErrNotFound := by
  constructor <;>
  · rintro ⟨e, he, hs⟩
    simp [sampleWrappedAppError, sampleAppError, NewAppError, GoError.chain] at he
    rcases he with rfl | rfl <;>
      simp [GoError.same, Globals.ErrNotFound, AppError.storedAt] at hs

theorem sampleWrappedAppError_hasAppError : sampleWrappedAppError.hasAppError :=
  ⟨sampleAppError, by simp [sampleWrappedAppError, sampleAppError, NewAppError, GoError.chain], rfl⟩

/-- C2, as the code has it: an error that is itself an AppError pointer other than
ErrNotFound is answered with WriteHeader(400) and Write(ErrNotFound.Marshal()), status 400
sent when the handler had sent nothing; but an error of another type that only wraps such
an AppError makes the type assertion err.(*AppError) panic after the content type has been
set: Middleware calls neither WriteHeader nor Write and no status is sent. -/
theorem C2_other_app_error_400_or_panic {ω : Type} (g : Globals) (h : appHandler ω)
    (w : ResponseWriter) (p : Params) (x : ω) (E : GoError)
    (hE : (h w p x).result = .returned E) (has : E.hasAppError)
    (hnf : ¬ E.isOrWraps g.ErrNotFound) :
    (E.isAppError = true →
      (Middleware g h w p x).result = .returned () ∧
      (Middleware g h w p x).w.calls =
        (h w p x).w.calls ++ answerCalls 400 g.ErrNotFound.Marshal ∧
      ((h w p x).w.nothingSent →
        (Middleware g h w p x).w.status = 400 ∧
        (Middleware g h w p x).w.body = [g.ErrNotFound.Marshal])) ∧
    (E.isAppError = false →
      (Middleware g h w p x).result = .panicked badTypeAssertion ∧
      (Middleware g h w p x).w.calls =
        (h w p x).w.calls ++ [.headerSet "Content-Type" "application/json"] ∧
      (Middleware g h w p x).w.wroteHeader = (h w p x).w.wroteHeader ∧
      (Middleware g h w p x).w.status = (h w p x).w.status) := by
  constructor
  · intro hself
    rw [Middleware_appError g h w p x E hE hself hnf, Marshal_ErrNotFound]
    exact ⟨rfl, calls_answer _ _ _, fun hw => ⟨(sent_answer _ _ _ hw).1, (sent_answer _ _ _ hw).2.1⟩⟩
  · intro hself
    rw [Middleware_wrapped g h w p x E hE hself has hnf]
    exact ⟨rfl, rfl, rfl, rfl⟩

/-- Witness of C2: a handler returning an AppError other than ErrNotFound is answered with
status 400; a handler returning an error that wraps, but is not, that AppError makes the
wrapped handler panic, and no status is sent. -/
theorem C2_other_app_error_400_or_panic_witness :
    (sampleAppError.hasAppError ∧ ¬ sampleAppError.isOrWraps sampleGlobals.ErrNotFound ∧
      (Middleware sampleGlobals (failWith sampleAppError) .fresh [] ()).w.status = 400 ∧
      (Middleware sampleGlobals (failWith sampleAppError) .fresh [] ()).w.body =
        [sampleGlobals.ErrNotFound.Marshal]) ∧
    (sampleWrappedAppError.hasAppError ∧
      ¬ sampleWrappedAppError.isOrWraps sampleGlobals.ErrNotFound ∧
      (Middleware sampleGlobals (failWith sampleWrappedAppError) .fresh [] ()).result =
        .panicked badTypeAssertion ∧
      (Middleware sampleGlobals (failWith sampleWrappedAppError) .fresh [] ()).w.wroteHeader =
        false) :=
  ⟨⟨by decide, samples_not_notFound.1,
    (((C2_other_app_error_400_or_panic sampleGlobals (failWith sampleAppError) .fresh [] ()
      sampleAppError rfl (by decide) samples_not_notFound.1).1 rfl).2.2 ⟨rfl, rfl⟩).1,
    (((C2_other_app_error_400_or_panic sampleGlobals (failWith sampleAppError) .fresh [] ()
      sampleAppError rfl (by decide) samples_not_notFound.1).1 rfl).2.2 ⟨rfl, rfl⟩).2⟩,
   ⟨sampleWrappedAppError_hasAppError, samples_not_notFound.2,
    ((C2_other_app_error_400_or_panic sampleGlobals (failWith sampleWrappedAppError) .fresh []
      () sampleWrappedAppError rfl sampleWrappedAppError_hasAppError
      samples_not_notFound.2).2 rfl).1,
    ((C2_other_app_error_400_or_panic sampleGlobals (failWith sampleWrappedAppError) .fresh []
      () sampleWrappedAppError rfl sampleWrappedAppError_hasAppError
      samples_not_notFound.2).2 rfl).2.2.1⟩⟩

theorem samplePlainError_plain : samplePlainError ≠ .nil ∧ ¬ samplePlainError.hasAppError := by
  refine ⟨by simp [samplePlainError], ?_⟩
  rintro ⟨e, he, hs⟩
  simp [samplePlainError, GoError.chain] at he
  subst he
  simp [GoError.isAppError] at hs

/-- C3, as the code has it: a non-nil error that neither is nor wraps an AppError is
answered with WriteHeader(418) and Write(systemError(E).Marshal()), a JSON object with a
member whose value is E.Error(), and status 418 is sent when the handler had sent nothing.
The closing sentence of the claim fails: there is a non-nil error, one that wraps an
AppError without being one, on which Middleware panics and sends no status at all. -/
theorem C3_unclassified_answers_418 (g : Globals) :
    (∀ {ω : Type} (h : appHandler ω) (w : ResponseWriter) (p : Params) (x : ω) (E : GoError),
      (h w p x).result = .returned E → E ≠ .nil → ¬ E.hasAppError →
      ∃ sys s, systemError g E = .returned sys ∧ E.Error = .returned s ∧
        sys.Marshal.hasMemberValue s ∧
        (Middleware g h w p x).result = .returned () ∧
        (Middleware g h w p x).w.calls = (h w p x).w.calls ++ answerCalls 418 sys.Marshal ∧
        ((h w p x).w.nothingSent →
          (Middleware g h w p x).w.status = 418 ∧
          (Middleware g h w p x).w.body = [sys.Marshal])) ∧
    (sampleWrappedAppError ≠ .nil ∧
      (Middleware g (failWith sampleWrappedAppError) .fresh [] ()).result =
        .panicked badTypeAssertion ∧
      (Middleware g (failWith sampleWrappedAppError) .fresh [] ()).w.wroteHeader = false ∧
      (Middleware g (failWith sampleWrappedAppError) .fresh [] ()).w.status ∉
        ([404, 400, 418] : List Nat)) := by
  constructor
  · intro ω h w p x E hE hne has
    refine ⟨NewAppError 1 E g.systemMessage E.text g.systemCode, E.text, ?_, ?_, ?_, ?_⟩
    · cases E <;> simp_all [systemError, GoError.Error, GoError.text]
    · cases E <;> simp_all [GoError.Error, GoError.text]
    · exact ⟨_, "developer_message", rfl, by simp⟩
    · rw [Middleware_unclassified g h w p x E hE hne has]
      exact ⟨rfl, calls_answer _ _ _,
        fun hw => ⟨(sent_answer _ _ _ hw).1, (sent_answer _ _ _ hw).2.1⟩⟩
  · have hnf : ¬ sampleWrappedAppError.isOrWraps g.ErrNotFound := by
      rintro ⟨e, he, hs⟩
      simp [sampleWrappedAppError, sampleAppError, NewAppError, GoError.chain] at he
      rcases he with rfl | rfl <;>
        simp [GoError.same, Globals.ErrNotFound, AppError.storedAt] at hs
    rw [Middleware_wrapped g (failWith sampleWrappedAppError) .fresh [] () sampleWrappedAppError
      rfl rfl sampleWrappedAppError_hasAppError hnf]
    refine ⟨by simp [sampleWrappedAppError], rfl, rfl, ?_⟩
    simp [failWith, ResponseWriter.HeaderSet, ResponseWriter.fresh]

/-- Witness of C3: a handler returning the plain error with text disk full is answered
with status 418 and the system envelope carrying that text. -/
theorem C3_unclassified_answers_418_witness :
    samplePlainError ≠ .nil ∧ ¬ samplePlainError.hasAppError ∧
    (Middleware sampleGlobals (failWith samplePlainError) .fresh [] ()).w.status = 418 ∧
    (Middleware sampleGlobals (failWith samplePlainError) .fresh [] ()).w.body =
      [.json [("code", "E-0000"), ("message", "internal system error"),
        ("developer_message", "disk full")]] := by
  obtain ⟨sys, s, hsys, -, -, -, -, hsent⟩ :=
    (C3_unclassified_answers_418 sampleGlobals).1 (failWith samplePlainError) .fresh [] ()
      samplePlainError rfl samplePlainError_plain.1 samplePlainError_plain.2
  have hs : sys = NewAppError 1 samplePlainError "internal system error" "disk full" "E-0000" := by
    have h2 : systemError sampleGlobals samplePlainError =
        .returned (NewAppError 1 samplePlainError "internal system error" "disk full" "E-0000") :=
      rfl
    rw [h2] at hsys
    exact (Outcome.returned.inj hsys).symm
  subst hs
  exact ⟨samplePlainError_plain.1, samplePlainError_plain.2, (hsent ⟨rfl, rfl⟩).1,
    (hsent ⟨rfl, rfl⟩).2⟩

/-! ## ObjectID: hexadecimal round trip -/

theorem hexValue_hexDigit (n : Fin 16) : hexValue (hexDigit n) = some n := by
  fin_cases n <;> rfl

theorem utf8Size_hexDigit (n : Fin 16) : (hexDigit n).utf8Size = 1 := by
  fin_cases n <;> rfl

theorem utf8Size_of_hexValue (c : Char) (n : Fin 16) (h : hexValue c = some n) :
    c.utf8Size = 1 := by
  have hc : c.toNat ≤ 127 := by
    unfold hexValue at h
    split_ifs at h <;> omega
  have : c.val ≤ 127 := by
    rw [UInt32.le_def]
    exact hc
  simp [Char.utf8Size, this]

theorem utf8ByteSize_go_eq (cs : List Char) (h : ∀ c ∈ cs, c.utf8Size = 1) :
    String.utf8ByteSize.go cs = cs.length := by
  induction cs with
  | nil => rfl
  | cons c cs ih =>
    simp only [String.utf8ByteSize.go, List.length_cons]
    rw [ih (fun d hd => h d (List.mem_cons_of_mem _ hd)), h c (List.mem_cons_self _ _)]

theorem decodeHex_some (cs : List Char) (ns : List (Fin 16)) (h : decodeHex cs = some ns) :
    (∀ c ∈ cs, c.utf8Size = 1) ∧ ns.length = cs.length := by
  induction cs generalizing ns with
  | nil => simp [decodeHex] at h; subst h; simp
  | cons c cs ih =>
    unfold decodeHex at h
    cases hv : hexValue c with
    | none => simp [hv] at h
    | some n =>
      cases hd : decodeHex cs with
      | none => simp [hv, hd] at h
      | some ms =>
        simp [hv, hd] at h
        subst h
        obtain ⟨h1, h2⟩ := ih ms hd
        refine ⟨?_, by simp [h2]⟩
        intro d hd2
        rcases List.mem_cons.1 hd2 with rfl | hd3
        · exact utf8Size_of_hexValue _ n hv
        · exact h1 d hd3

theorem decodeHex_map_hexDigit (ns : List (Fin 16)) :
    decodeHex (ns.map hexDigit) = some ns := by
  induction ns with
  | nil => rfl
  | cons n ns ih => simp [decodeHex, hexValue_hexDigit, ih]

theorem ObjectIDFromHex_length (s : String) (o : ObjectID)
    (h : ObjectIDFromHex s = (o, .nil)) : o.nibbles.length = 24 := by
  unfold ObjectIDFromHex at h
  split_ifs at h with hlen
  · simp [ErrInvalidHex] at h
  · have hl : s.toList = s.data := rfl
    cases hd : decodeHex s.data with
    | none => simp [hl, hd, InvalidByteError] at h
    | some ns =>
      simp only [hl, hd, Prod.mk.injEq, and_true] at h
      subst h
      rw [← hl] at hd
      obtain ⟨h1, h2⟩ := decodeHex_some _ _ hd
      have hb : s.utf8ByteSize = s.toList.length := by
        cases s with
        | mk cs => exact utf8ByteSize_go_eq cs h1
      simp only [ne_eq, Decidable.not_not] at hlen
      rw [h2, ← hb, hlen]

theorem ObjectIDFromHex_Hex (o : ObjectID) (h : o.nibbles.length = 24) :
    ObjectIDFromHex o.Hex = (o, .nil) := by
  have hb : o.Hex.utf8ByteSize = 24 := by
    show String.utf8ByteSize.go (o.nibbles.map hexDigit) = 24
    rw [utf8ByteSize_go_eq _ (by
      intro c hc
      obtain ⟨n, _, rfl⟩ := List.mem_map.1 hc
      exact utf8Size_hexDigit n)]
    simp [h]
  unfold ObjectIDFromHex
  simp only [hb, ne_eq, not_true_eq_false, if_false]
  have : o.Hex.toList = o.nibbles.map hexDigit := rfl
  rw [this, decodeHex_map_hexDigit]

/-- A syntactically valid id decodes again from its canonical text. -/
theorem ObjectIDFromHex_roundtrip (s : String) (o : ObjectID)
    (h : ObjectIDFromHex s = (o, .nil)) : ObjectIDFromHex o.Hex = (o, .nil) :=
  ObjectIDFromHex_Hex o (ObjectIDFromHex_length s o h)

/-! ## The adapter on an id that matches no document -/

theorem errorsIs_ErrNoDocuments : errorsIs ErrNoDocuments ErrNoDocuments = true := by
  simp [errorsIs, ErrNoDocuments, errorsIsLoop, GoError.same]

theorem find_absent (docs : List Document) (o : ObjectID) (h : ∀ d ∈ docs, d.id ≠ o) :
    docs.find? (fun d => d.id = o) = none := by
  simp only [List.find?_eq_none, decide_eq_true_eq]
  exact h

theorem any_absent (docs : List Document) (o : ObjectID) (h : ∀ d ∈ docs, d.id ≠ o) :
    docs.any (fun d => d.id = o) = false := by
  simp only [List.any_eq_false, decide_eq_true_eq]
  exact h

theorem next_docs (c : Collection) : c.next.2.docs = c.docs := by
  unfold Collection.next
  split <;> rfl

theorem db_FindOne_absent (g : Globals) (c : Collection) (o : ObjectID)
    (hlen : o.nibbles.length = 24) (hok : c.next.1 = none) (hno : ∀ d ∈ c.docs, d.id ≠ o) :
    db.FindOne g o.Hex c = (.returned (⟨"", "", "", ""⟩, g.ErrNotFound), c.next.2) := by
  have hf : c.next.2.docs.find? (fun d => d.id = o) = none :=
    find_absent _ o (by rw [next_docs]; exact hno)
  rcases hn : c.next with ⟨f, c1⟩
  rw [hn] at hok hf
  simp only at hok hf
  subst hok
  have hne : ErrNoDocuments ≠ .nil := by simp [ErrNoDocuments]
  simp [db.FindOne, ObjectIDFromHex_Hex o hlen, Collection.FindOne, hn, hf,
    errorsIs_ErrNoDocuments, hne]

theorem db_Delete_absent (g : Globals) (c : Collection) (o : ObjectID)
    (hlen : o.nibbles.length = 24) (hok : c.next.1 = none) (hno : ∀ d ∈ c.docs, d.id ≠ o) :
    db.Delete g o.Hex c = (.returned g.ErrNotFound, c.next.2) := by
  have hf : c.next.2.docs.any (fun d => d.id = o) = false :=
    any_absent _ o (by rw [next_docs]; exact hno)
  rcases hn : c.next with ⟨f, c1⟩
  rw [hn] at hok hf
  simp only at hok hf
  subst hok
  simp [db.Delete, ObjectIDFromHex_Hex o hlen, Collection.DeleteOne, hn, hf]

theorem UpdateUser_absent (g : Globals) (c : Collection) (o : ObjectID) (w : ResponseWriter)
    (p : Params) (l : List StorageCall)
    (hid : ObjectIDFromHex (ByName p "uuid") = (o, .nil))
    (hok : c.next.1 = none) (hno : ∀ d ∈ c.docs, d.id ≠ o) :
    UpdateUser (NewStorage g) w p ⟨c, l⟩ =
      ⟨w, ⟨c.next.2, l ++ [.FindOne o.Hex]⟩, .returned g.ErrNotFound⟩ := by
  have hlen := ObjectIDFromHex_length _ o hid
  simp [UpdateUser, hid, World.FindOne, NewStorage, db_FindOne_absent g c o hlen hok hno,
    ErrNotFound_ne_nil]

theorem PartiallyUpdateUser_absent (g : Globals) (c : Collection) (o : ObjectID)
    (w : ResponseWriter) (p : Params) (l : List StorageCall)
    (hid : ObjectIDFromHex (ByName p "uuid") = (o, .nil))
    (hok : c.next.1 = none) (hno : ∀ d ∈ c.docs, d.id ≠ o) :
    PartiallyUpdateUser (NewStorage g) w p ⟨c, l⟩ =
      ⟨w, ⟨c.next.2, l ++ [.FindOne o.Hex]⟩, .returned g.ErrNotFound⟩ := by
  have hlen := ObjectIDFromHex_length _ o hid
  simp [PartiallyUpdateUser, hid, World.FindOne, NewStorage,
    db_FindOne_absent g c o hlen hok hno, ErrNotFound_ne_nil]

theorem DeleteUser_absent (g : Globals) (c : Collection) (o : ObjectID)
    (w : ResponseWriter) (p : Params) (l : List StorageCall)
    (hid : ObjectIDFromHex (ByName p "uuid") = (o, .nil))
    (hok : c.next.1 = none) (hno : ∀ d ∈ c.docs, d.id ≠ o) :
    DeleteUser g (NewStorage g) w p ⟨c, l⟩ =
      ⟨w, ⟨c.next.2, l ++ [.Delete o.Hex]⟩, .returned g.ErrDelete⟩ := by
  have hlen := ObjectIDFromHex_length _ o hid
  simp [DeleteUser, hid, World.Delete, NewStorage, db_Delete_absent g c o hlen hok hno,
    ErrNotFound_ne_nil]

theorem ErrNotFound_isOrWraps_self (g : Globals) : g.ErrNotFound.isOrWraps g.ErrNotFound :=
  ⟨g.ErrNotFound, by simp [Globals.ErrNotFound, AppError.storedAt, GoError.chain], by
    simp [Globals.ErrNotFound, AppError.storedAt, GoError.same]⟩

theorem sampleId_decodes : ObjectIDFromHex sampleId = (sampleOid, .nil) := by rfl
theorem absentId_decodes : ObjectIDFromHex absentId = (absentOid, .nil) := by decide
theorem absentOid_absent : ∀ d ∈ sampleCollection.docs, d.id ≠ absentOid := by
  simp [sampleCollection, sampleOid, absentOid]

theorem Middleware_status_404_iff {ω : Type} (g : Globals) (h : appHandler ω)
    (w : ResponseWriter) (p : Params) (x : ω) (E : GoError)
    (hE : (h w p x).result = .returned E) (hw : (h w p x).w = .fresh) :
    (Middleware g h w p x).w.status = 404 ↔ E.isOrWraps g.ErrNotFound := by
  constructor
  · intro hs
    by_contra hnf
    by_cases hne : E = .nil
    · subst hne
      rw [Middleware_nil g h w p x hE, hw] at hs
      simp [ResponseWriter.HeaderSet, ResponseWriter.fresh] at hs
    · by_cases has : E.hasAppError
      · cases hself : E.isAppError
        · rw [Middleware_wrapped g h w p x E hE hself has hnf, hw] at hs
          simp [ResponseWriter.HeaderSet, ResponseWriter.fresh] at hs
        · rw [Middleware_appError g h w p x E hE hself hnf, hw] at hs
          simp [ResponseWriter.HeaderSet, ResponseWriter.WriteHeader, ResponseWriter.Write,
            ResponseWriter.fresh] at hs
      · rw [Middleware_unclassified g h w p x E hE hne has, hw] at hs
        simp [ResponseWriter.HeaderSet, ResponseWriter.WriteHeader, ResponseWriter.Write,
          ResponseWriter.fresh] at hs
  · intro hnf
    rw [Middleware_notFound g h w p x E hE hnf, hw]
    rfl

/-! ## Not-found propagation: DeleteUser, and C5 -/

/-- What DeleteUser does on a syntactically valid id that matches no stored document,
whatever value ErrDelete has: storage Delete returns ErrNotFound, DeleteUser calls Delete
once, writes nothing and returns ErrDelete in its place, and the status sent is 404 exactly
when ErrDelete itself is or wraps ErrNotFound. -/
theorem DeleteUser_absent_status_404_iff (g : Globals) (c : Collection) (o : ObjectID)
    (p : Params) (hid : ObjectIDFromHex (ByName p "uuid") = (o, .nil))
    (hok : c.next.1 = none) (hno : ∀ d ∈ c.docs, d.id ≠ o) :
    ((NewStorage g).Delete o.Hex c).1 = .returned g.ErrNotFound ∧
    (DeleteUser g (NewStorage g) .fresh p ⟨c, []⟩).result = .returned g.ErrDelete ∧
    (DeleteUser g (NewStorage g) .fresh p ⟨c, []⟩).w = .fresh ∧
    (DeleteUser g (NewStorage g) .fresh p ⟨c, []⟩).world.stgCalls = [.Delete o.Hex] ∧
    ((Register g (NewStorage g) .deleteUser .fresh p ⟨c, []⟩).w.status = 404 ↔
      g.ErrDelete.isOrWraps g.ErrNotFound) := by
  have hd := DeleteUser_absent g c o .fresh p [] hid hok hno
  refine ⟨?_, by rw [hd], by rw [hd], by rw [hd]; rfl, ?_⟩
  · show (db.Delete g o.Hex c).1 = _
    rw [db_Delete_absent g c o (ObjectIDFromHex_length _ o hid) hok hno]
  · exact Middleware_status_404_iff g (DeleteUser g (NewStorage g)) _ _ _ _
      (by rw [hd]) (by rw [hd])

/-- C5: for a syntactically valid id that matches no stored document, UpdateUser and
PartiallyUpdateUser return the ErrNotFound singleton itself; the wrapped handler returns
normally, the status sent is 404 with the body ErrNotFound.Marshal(), the only storage call
of the request is FindOne with that id, so Update is never called, and the documents are
unchanged. -/
theorem C5_update_absent_id_answers_404 (g : Globals) (c : Collection) (o : ObjectID)
    (p : Params) (r : Route) (hr : r = .updateUser ∨ r = .partiallyUpdateUser)
    (hid : ObjectIDFromHex (ByName p "uuid") = (o, .nil))
    (hok : c.next.1 = none) (hno : ∀ d ∈ c.docs, d.id ≠ o) :
    (r.handler g (NewStorage g) .fresh p ⟨c, []⟩).result = .returned g.ErrNotFound ∧
    (Register g (NewStorage g) r .fresh p ⟨c, []⟩).result = .returned () ∧
    (Register g (NewStorage g) r .fresh p ⟨c, []⟩).w.status = 404 ∧
    (Register g (NewStorage g) r .fresh p ⟨c, []⟩).w.body = [g.ErrNotFound.Marshal] ∧
    (Register g (NewStorage g) r .fresh p ⟨c, []⟩).world.stgCalls = [.FindOne o.Hex] ∧
    (∀ u, StorageCall.Update u ∉ (Register g (NewStorage g) r .fresh p ⟨c, []⟩).world.stgCalls) ∧
    (Register g (NewStorage g) r .fresh p ⟨c, []⟩).world.store.docs = c.docs := by
  have hh : r.handler g (NewStorage g) .fresh p ⟨c, []⟩ =
      ⟨.fresh, ⟨c.next.2, [.FindOne o.Hex]⟩, .returned g.ErrNotFound⟩ := by
    rcases hr with rfl | rfl
    · exact UpdateUser_absent g c o .fresh p [] hid hok hno
    · exact PartiallyUpdateUser_absent g c o .fresh p [] hid hok hno
  have hres : (r.handler g (NewStorage g) .fresh p ⟨c, []⟩).result = .returned g.ErrNotFound := by
    rw [hh]
  refine ⟨hres, ?_⟩
  unfold Register
  rw [Middleware_notFound g _ _ _ _ _ hres (ErrNotFound_isOrWraps_self g), hh]
  refine ⟨rfl, rfl, rfl, rfl, ?_, next_docs c⟩
  intro u hu
  simp at hu

/-- Witness of C5: a PATCH of the absent id on the sample collection. -/
theorem C5_update_absent_id_answers_404_witness :
    ObjectIDFromHex (ByName [("uuid", absentId), ("email", "e")] "uuid") = (absentOid, .nil) ∧
    sampleCollection.next.1 = none ∧
    (∀ d ∈ sampleCollection.docs, d.id ≠ absentOid) ∧
    (Register sampleGlobals (NewStorage sampleGlobals) .partiallyUpdateUser .fresh
      [("uuid", absentId), ("email", "e")] ⟨sampleCollection, []⟩).w.status = 404 :=
  ⟨absentId_decodes, rfl, absentOid_absent,
   (C5_update_absent_id_answers_404 sampleGlobals sampleCollection absentOid
     [("uuid", absentId), ("email", "e")] .partiallyUpdateUser (Or.inr rfl)
     absentId_decodes rfl absentOid_absent).2.2.1⟩

/-! ## Handlers on an existing record: C6, C7 -/

/-- C6: when FindOne finds the record u, the record PartiallyUpdateUser passes to storage
Update, in the one Update call it makes right after FindOne, has the id of u and, field by
field, the value of u when the request parameter is exactly the string pass and the
parameter otherwise; the password parameter goes to PasswordHash. -/
theorem C6_partial_update_record {σ : Type} (stg : Storage σ) (w : ResponseWriter)
    (p : Params) (x : World σ) (o : ObjectID) (u : User) (s1 : σ)
    (hid : ObjectIDFromHex (ByName p "uuid") = (o, .nil))
    (hfind : stg.FindOne o.Hex x.store = (.returned (u, .nil), s1)) :
    (PartiallyUpdateUser stg w p x).world.stgCalls =
      x.stgCalls ++ [.FindOne o.Hex, .Update
        ⟨u.ID,
         if ByName p "email" = "pass" then u.Email else ByName p "email",
         if ByName p "username" = "pass" then u.Username else ByName p "username",
         if ByName p "password" = "pass" then u.PasswordHash else ByName p "password"⟩] := by
  simp only [PartiallyUpdateUser, hid, World.FindOne, hfind, World.Update, ne_eq,
    not_true_eq_false, if_false, ite_not]
  split
  · rename_i heq
    simp only [Prod.mk.injEq] at heq
    rw [← heq.2]
    by_cases h1 : ByName p "email" = "pass" <;> by_cases h2 : ByName p "username" = "pass" <;>
      by_cases h3 : ByName p "password" = "pass" <;> simp [h1, h2, h3]
  · rename_i heq
    simp only [Prod.mk.injEq] at heq
    split <;>
    · rw [← heq.2]
      by_cases h1 : ByName p "email" = "pass" <;> by_cases h2 : ByName p "username" = "pass" <;>
        by_cases h3 : ByName p "password" = "pass" <;> simp [h1, h2, h3, jsonMarshalUser]

theorem sample_FindOne :
    (NewStorage sampleGlobals).FindOne sampleOid.Hex sampleCollection =
      (.returned (⟨sampleId, "a", "b", "c"⟩, .nil), sampleCollection) := by
  decide

/-- Witness of C6: the example of the spec, a stored user with email a, username b and
password hash c, patched with the parameters pass, new, pass. -/
theorem C6_partial_update_record_witness :
    ObjectIDFromHex (ByName [("uuid", sampleId), ("email", "pass"), ("username", "new"),
      ("password", "pass")] "uuid") = (sampleOid, .nil) ∧
    (NewStorage sampleGlobals).FindOne sampleOid.Hex sampleCollection =
      (.returned (⟨sampleId, "a", "b", "c"⟩, .nil), sampleCollection) ∧
    (PartiallyUpdateUser (NewStorage sampleGlobals) .fresh
      [("uuid", sampleId), ("email", "pass"), ("username", "new"), ("password", "pass")]
      ⟨sampleCollection, []⟩).world.stgCalls =
      [.FindOne sampleId, .Update ⟨sampleId, "a", "new", "c"⟩] :=
  ⟨sampleId_decodes, sample_FindOne,
   C6_partial_update_record (NewStorage sampleGlobals) .fresh
     [("uuid", sampleId), ("email", "pass"), ("username", "new"), ("password", "pass")]
     ⟨sampleCollection, []⟩ sampleOid ⟨sampleId, "a", "b", "c"⟩ sampleCollection
     sampleId_decodes sample_FindOne⟩

/-- C7, as the code has it: when storage Create succeeds, CreateUser calls Write with the
JSON of the creation input, whose members are exactly email, username and password, and
only then WriteHeader(201). Under the ResponseWriter semantics the Write has already sent
status 200, so the status of the response is 200 and not 201. -/
theorem C7_create_sends_200 {σ : Type} (g : Globals) (stg : Storage σ) (p : Params)
    (x : World σ) (id : String) (s1 : σ)
    (hcreate : stg.Create ⟨"", ByName p "email", ByName p "username", ByName p "password"⟩
      x.store = (.returned (id, .nil), s1)) :
    (Register g stg .createUser .fresh p x).result = .returned () ∧
    (Register g stg .createUser .fresh p x).w.status = 200 ∧
    (Register g stg .createUser .fresh p x).w.status ≠ 201 ∧
    (Register g stg .createUser .fresh p x).w.body =
      [.json [("email", ByName p "email"), ("username", ByName p "username"),
        ("password", ByName p "password")]] ∧
    (Register g stg .createUser .fresh p x).w.calls =
      [.write (.json [("email", ByName p "email"), ("username", ByName p "username"),
        ("password", ByName p "password")]),
       .writeHeader 201,
       .headerSet "Content-Type" "application/json"] := by
  have hh : CreateUser stg .fresh p x =
      ⟨(ResponseWriter.fresh.Write (.json [("email", ByName p "email"),
          ("username", ByName p "username"), ("password", ByName p "password")])).WriteHeader 201,
        ⟨s1, x.stgCalls ++ [.Create ⟨"", ByName p "email", ByName p "username",
          ByName p "password"⟩]⟩, .returned .nil⟩ := by
    simp [CreateUser, World.Create, hcreate, jsonMarshalDTO, CreateUserDTO.toJson]
  have hres : (CreateUser stg .fresh p x).result = .returned .nil := by rw [hh]
  have hreg : Register g stg .createUser .fresh p x =
      ⟨(CreateUser stg .fresh p x).w.HeaderSet "Content-Type" "application/json",
        (CreateUser stg .fresh p x).world, .returned ()⟩ :=
    Middleware_nil g (CreateUser stg) .fresh p x hres
  rw [hreg, hh]
  refine ⟨rfl, rfl, ?_, rfl, rfl⟩
  show (200 : Nat) ≠ 201
  decide

theorem sample_Create :
    (NewStorage sampleGlobals).Create ⟨"", "e", "u", "p"⟩ sampleCollection =
      (.returned ("000000000000000000000007", .nil),
        ⟨[⟨sampleOid, "a", "b", "c"⟩, ⟨ObjectID.ofNat 7, "e", "u", "p"⟩], [], 8⟩) := by
  decide

/-- Witness of C7: a POST on the sample collection is answered with status 200. -/
theorem C7_create_sends_200_witness :
    (NewStorage sampleGlobals).Create ⟨"", "e", "u", "p"⟩ sampleCollection =
      (.returned ("000000000000000000000007", .nil),
        ⟨[⟨sampleOid, "a", "b", "c"⟩, ⟨ObjectID.ofNat 7, "e", "u", "p"⟩], [], 8⟩) ∧
    (Register sampleGlobals (NewStorage sampleGlobals) .createUser .fresh
      [("email", "e"), ("username", "u"), ("password", "p")] ⟨sampleCollection, []⟩).w.status =
        200 :=
  ⟨sample_Create,
   (C7_create_sends_200 sampleGlobals (NewStorage sampleGlobals)
     [("email", "e"), ("username", "u"), ("password", "p")] ⟨sampleCollection, []⟩
     "000000000000000000000007" _ sample_Create).2.1⟩

/-! ## Order of the writer calls: C8 -/

/-- C8, as the code has it: Middleware runs the handler first and sets the content type
afterwards. For a handler that returns nil, the calls on the writer are those of the handler
followed by the single Header().Set, so every Write and WriteHeader of the handler precedes
it, and the headers and status already sent are left as the handler sent them. -/
theorem C8_content_type_set_after_handler {ω : Type} (g : Globals) (h : appHandler ω)
    (w : ResponseWriter) (p : Params) (x : ω) (hE : (h w p x).result = .returned .nil) :
    (Middleware g h w p x).w.calls =
      (h w p x).w.calls ++ [.headerSet "Content-Type" "application/json"] ∧
    (Middleware g h w p x).w.sentHeader = (h w p x).w.sentHeader ∧
    (Middleware g h w p x).w.status = (h w p x).w.status ∧
    (Middleware g h w p x).w.body = (h w p x).w.body := by
  rw [Middleware_nil g h w p x hE]
  exact ⟨rfl, rfl, rfl, rfl⟩

theorem sample_GetList :
    GetList sampleGlobals (NewStorage sampleGlobals) .fresh [] ⟨sampleCollection, []⟩ =
      ⟨(ResponseWriter.fresh.Write (.jsonArray [[("id", sampleId), ("email", "a"),
          ("username", "b"), ("password_hash", "c")]])).WriteHeader 200,
        ⟨sampleCollection, [.FindAll]⟩, .returned .nil⟩ := by
  rfl

/-- Witness of C8: GET /users on the sample collection; the body and the status are
written before the content type is set, and the Content-Type sent is the sniffed plain
text, not application/json. -/
theorem C8_content_type_set_after_handler_witness :
    (GetList sampleGlobals (NewStorage sampleGlobals) .fresh [] ⟨sampleCollection, []⟩).result =
      .returned .nil ∧
    (Register sampleGlobals (NewStorage sampleGlobals) .getList .fresh []
      ⟨sampleCollection, []⟩).w.calls =
      [.write (.jsonArray [[("id", sampleId), ("email", "a"), ("username", "b"),
          ("password_hash", "c")]]),
       .writeHeader 200,
       .headerSet "Content-Type" "application/json"] ∧
    (Register sampleGlobals (NewStorage sampleGlobals) .getList .fresh []
      ⟨sampleCollection, []⟩).w.sentHeader = [("Content-Type", "text/plain; charset=utf-8")] ∧
    ("Content-Type", "application/json") ∉
      (Register sampleGlobals (NewStorage sampleGlobals) .getList .fresh []
        ⟨sampleCollection, []⟩).w.sentHeader := by
  have hh := sample_GetList
  have hr : (GetList sampleGlobals (NewStorage sampleGlobals) .fresh []
      ⟨sampleCollection, []⟩).result = .returned .nil := by rw [hh]
  have h := C8_content_type_set_after_handler sampleGlobals
    (GetList sampleGlobals (NewStorage sampleGlobals)) .fresh [] ⟨sampleCollection, []⟩ hr
  rw [hh] at h
  have hs : (Register sampleGlobals (NewStorage sampleGlobals) .getList .fresh []
      ⟨sampleCollection, []⟩).w.sentHeader = [("Content-Type", "text/plain; charset=utf-8")] :=
    h.2.1
  refine ⟨hr, h.1, hs, ?_⟩
  rw [hs]
  decide

/-! ## Panics and the dropped decode error: C9, C10 -/

/-- When the driver call Find fails, the adapter calls Err on the nil cursor: FindAll, and
with it GetList and the wrapped handler, panics. -/
theorem GetList_panics_when_Find_fails (g : Globals) (c : Collection) (msg : String)
    (w : ResponseWriter) (p : Params) (l : List StorageCall)
    (hf : c.next.1 = some msg) :
    (Register g (NewStorage g) .getList w p ⟨c, l⟩).result = .panicked nilDereference := by
  have hh : (GetList g (NewStorage g) w p ⟨c, l⟩).result = .panicked nilDereference := by
    rcases hn : c.next with ⟨f, c1⟩
    rw [hn] at hf
    simp only at hf
    subst hf
    simp [GetList, World.FindAll, NewStorage, db.FindAll, Collection.Find, hn]
  show (Middleware g (GetList g (NewStorage g)) w p ⟨c, l⟩).result = _
  rw [Middleware_panicked g _ w p _ _ hh]

theorem wrapped_not_notFound (g : Globals) :
    ¬ sampleWrappedAppError.isOrWraps g.ErrNotFound := by
  rintro ⟨e, he, hs⟩
  simp [sampleWrappedAppError, sampleAppError, NewAppError, GoError.chain] at he
  rcases he with rfl | rfl <;>
    simp [GoError.same, Globals.ErrNotFound, AppError.storedAt] at hs

/-- C9, as the code has it: when FindOne succeeds and storage Update then fails, UpdateUser
and PartiallyUpdateUser build their AppError from err, the nil error of FindOne, and the
call err.Error() panics with a nil dereference; the wrapped handler panics too and nothing
is written to the response. Middleware itself panics in the type assertion on an error that
wraps, but is not, an AppError. -/
theorem C9_update_failure_panics {σ : Type} (g : Globals) (stg : Storage σ)
    (w : ResponseWriter) (p : Params) (x : World σ) (o : ObjectID) (u : User) (s1 : σ)
    (r : Route) (hr : r = .updateUser ∨ r = .partiallyUpdateUser)
    (hid : ObjectIDFromHex (ByName p "uuid") = (o, .nil))
    (hfind : stg.FindOne o.Hex x.store = (.returned (u, .nil), s1))
    (hupd : ∀ u1, ∃ e s2, e ≠ .nil ∧ stg.Update u1 s1 = (.returned e, s2)) :
    (r.handler g stg w p x).result = .panicked nilDereference ∧
    (Register g stg r w p x).result = .panicked nilDereference ∧
    (Register g stg r w p x).w = w ∧
    (Middleware g (failWith sampleWrappedAppError) .fresh [] ()).result =
      .panicked badTypeAssertion := by
  have hh : (r.handler g stg w p x).result = .panicked nilDereference ∧
      (r.handler g stg w p x).w = w := by
    rcases hr with rfl | rfl
    · obtain ⟨e, s2, hne, he⟩ := hupd
        ⟨u.ID, ByName p "email", ByName p "username", ByName p "password"⟩
      simp [Route.handler, UpdateUser, hid, World.FindOne, hfind, World.Update, he, hne,
        newAppErrorOf, GoError.Error]
    · obtain ⟨e, s2, hne, he⟩ := hupd
        (if ByName p "password" ≠ "pass" then
          { (if ByName p "username" ≠ "pass" then
              { (if ByName p "email" ≠ "pass" then { u with Email := ByName p "email" }
                  else u) with Username := ByName p "username" }
             else (if ByName p "email" ≠ "pass" then { u with Email := ByName p "email" }
                  else u)) with PasswordHash := ByName p "password" }
         else (if ByName p "username" ≠ "pass" then
              { (if ByName p "email" ≠ "pass" then { u with Email := ByName p "email" }
                  else u) with Username := ByName p "username" }
             else (if ByName p "email" ≠ "pass" then { u with Email := ByName p "email" }
                  else u)))
      simp only [ne_eq, ite_not] at he
      simp [Route.handler, PartiallyUpdateUser, hid, World.FindOne, hfind, World.Update, he,
        hne, newAppErrorOf, GoError.Error]
  refine ⟨hh.1, ?_, ?_, ?_⟩
  · show (Middleware g (r.handler g stg) w p x).result = _
    rw [Middleware_panicked g _ w p x _ hh.1]
  · show (Middleware g (r.handler g stg) w p x).w = _
    rw [Middleware_panicked g _ w p x _ hh.1]
    exact hh.2
  · rw [Middleware_wrapped g (failWith sampleWrappedAppError) .fresh [] () sampleWrappedAppError
      rfl rfl sampleWrappedAppError_hasAppError (wrapped_not_notFound g)]

theorem flaky_FindOne :
    (NewStorage sampleGlobals).FindOne sampleOid.Hex flakyCollection =
      (.returned (⟨sampleId, "a", "b", "c"⟩, .nil),
        ⟨[⟨sampleOid, "a", "b", "c"⟩], [some "connection lost"], 7⟩) := by
  decide

theorem flaky_Update (u1 : User) :
    ∃ e s2, e ≠ .nil ∧
      (NewStorage sampleGlobals).Update u1
        ⟨[⟨sampleOid, "a", "b", "c"⟩], [some "connection lost"], 7⟩ = (.returned e, s2) := by
  show ∃ e s2, e ≠ .nil ∧ db.Update sampleGlobals u1
    ⟨[⟨sampleOid, "a", "b", "c"⟩], [some "connection lost"], 7⟩ = (.returned e, s2)
  unfold db.Update
  rcases ObjectIDFromHex u1.ID with ⟨oid, err⟩
  by_cases he : err = .nil
  · subst he
    refine ⟨fmtErrorf ("failed to execute update user query. error: " ++
      (driverError "connection lost").verbV), ⟨[⟨sampleOid, "a", "b", "c"⟩], [], 7⟩, ?_, ?_⟩
    · simp [fmtErrorf]
    · simp [Collection.UpdateOne, Collection.next, driverError]
  · refine ⟨fmtErrorf ("failed to convert user ID to ObjectId. ID=" ++ u1.ID),
      ⟨[⟨sampleOid, "a", "b", "c"⟩], [some "connection lost"], 7⟩, ?_, ?_⟩
    · simp [fmtErrorf]
    · simp [he]

/-- Witness of C9: a PUT for the stored user when the connection is lost between FindOne
and Update. -/
theorem C9_update_failure_panics_witness :
    ObjectIDFromHex (ByName [("uuid", sampleId), ("email", "e"), ("username", "u"),
      ("password", "p")] "uuid") = (sampleOid, .nil) ∧
    (NewStorage sampleGlobals).FindOne sampleOid.Hex flakyCollection =
      (.returned (⟨sampleId, "a", "b", "c"⟩, .nil),
        ⟨[⟨sampleOid, "a", "b", "c"⟩], [some "connection lost"], 7⟩) ∧
    (Register sampleGlobals (NewStorage sampleGlobals) .updateUser .fresh
      [("uuid", sampleId), ("email", "e"), ("username", "u"), ("password", "p")]
      ⟨flakyCollection, []⟩).result = .panicked nilDereference :=
  ⟨sampleId_decodes, flaky_FindOne,
   (C9_update_failure_panics sampleGlobals (NewStorage sampleGlobals) .fresh
     [("uuid", sampleId), ("email", "e"), ("username", "u"), ("password", "p")]
     ⟨flakyCollection, []⟩ sampleOid ⟨sampleId, "a", "b", "c"⟩ _ .updateUser (Or.inl rfl)
     sampleId_decodes flaky_FindOne flaky_Update).2.1⟩

theorem ObjectIDFromHex_failed (s : String) (h : (ObjectIDFromHex s).2 ≠ .nil) :
    (ObjectIDFromHex s).1 = NilObjectID := by
  unfold ObjectIDFromHex at h ⊢
  split_ifs with hlen
  · rfl
  · have hl : s.toList = s.data := rfl
    rw [hl] at h ⊢
    cases hd : decodeHex s.data with
    | none => rfl
    | some ns => simp [hlen, hd] at h

theorem NilObjectID_Hex : NilObjectID.Hex = "000000000000000000000000" := by decide

/-- C10, as the code has it: GetUserByUUID never reads the error of ObjectIDFromHex. On a
malformed uuid it queries storage with the all-zero id instead of the one requested and
behaves exactly as for that id: it reports success with the record FindOne returns for
the all-zero id, and otherwise returns an AppError whose cause is the error of FindOne; the
decode error is lost. When FindOne fails, the AppError returned wraps the error of
FindOne. -/
theorem C10_decode_error_dropped {σ : Type} (stg : Storage σ) (w : ResponseWriter)
    (p : Params) (x : World σ) (hbad : (ObjectIDFromHex (ByName p "uuid")).2 ≠ .nil) :
    (GetUserByUUID stg w p x).world.stgCalls =
      x.stgCalls ++ [.FindOne "000000000000000000000000"] ∧
    (∀ u s1, stg.FindOne "000000000000000000000000" x.store = (.returned (u, .nil), s1) →
      (GetUserByUUID stg w p x).result = .returned .nil ∧
      (GetUserByUUID stg w p x).w = (w.Write (.json u.toJson)).WriteHeader 200) ∧
    (∀ u e s1, e ≠ .nil →
      stg.FindOne "000000000000000000000000" x.store = (.returned (u, e), s1) →
      (GetUserByUUID stg w p x).result = .returned (NewAppError 0 e
        ("error find one user by id: " ++ "000000000000000000000000") e.text "E-0990") ∧
      (NewAppError 0 e ("error find one user by id: " ++ "000000000000000000000000") e.text
        "E-0990").Unwrap = e) := by
  have h1 := ObjectIDFromHex_failed _ hbad
  rcases hx : ObjectIDFromHex (ByName p "uuid") with ⟨oid, err⟩
  rw [hx] at h1
  simp only at h1
  subst h1
  refine ⟨?_, ?_, ?_⟩
  · simp only [GetUserByUUID, hx, NilObjectID_Hex, World.FindOne]
    rcases stg.FindOne "000000000000000000000000" x.store with ⟨_ | _, s1⟩ <;> simp
    split <;> simp [jsonMarshalUser]
  · intro u s1 hf
    simp [GetUserByUUID, hx, NilObjectID_Hex, World.FindOne, hf, jsonMarshalUser]
  · intro u e s1 hne hf
    cases e with
    | nil => exact absurd rfl hne
    | appError q c m d k =>
      simp [GetUserByUUID, hx, NilObjectID_Hex, World.FindOne, hf, newAppErrorOf,
        GoError.Error, GoError.text, NewAppError, GoError.Unwrap]
    | other q m c =>
      simp [GetUserByUUID, hx, NilObjectID_Hex, World.FindOne, hf, newAppErrorOf,
        GoError.Error, GoError.text, NewAppError, GoError.Unwrap]

/-- Witness of C10: GET /users/xyz queries storage with the all-zero id. -/
theorem C10_decode_error_dropped_witness :
    (ObjectIDFromHex (ByName [("uuid", "xyz")] "uuid")).2 ≠ .nil ∧
    (GetUserByUUID (NewStorage sampleGlobals) .fresh [("uuid", "xyz")]
      ⟨sampleCollection, []⟩).world.stgCalls = [.FindOne "000000000000000000000000"] :=
  ⟨by decide,
   (C10_decode_error_dropped (NewStorage sampleGlobals) .fresh [("uuid", "xyz")]
     ⟨sampleCollection, []⟩ (by decide)).1⟩

end UserService
